import Mathlib

/-!
# Verification of the `brokit` nhmmer application controller

Shallow embedding of `src/bfillings/hmmer.py`: the `hmmer_nhmmer`
parameter table, the `run_nhmmer` orchestration function (option
validation, command construction, artifact computation), and the narrow
contracts of its external collaborators (the burrito command-line
controller base class and the FASTA parser), as described by the
specification.
-/

namespace Brokit

/-- The per-instance parameter state of `hmmer_nhmmer`, one field per entry
of `hmmer_nhmmer._parameters`.  A `FlagParameter` is a `Bool` (on/off); a
`ValuedParameter` is an `Option` (on iff a value is present).  Paths are
strings, the E-value is a rational, the cpu count an integer. -/
structure NhmmerParams where
  o : Option String
  noali : Bool
  tblout : Option String
  acc : Bool
  E : Option ℚ
  cpu : Option Int
  deriving Repr, DecidableEq

/-- The class-level defaults of `hmmer_nhmmer._parameters`
(src/bfillings/hmmer.py lines 51-68): `-o` and `--tblout` are off,
`--noali` and `--acc` are on, `-E` defaults to `1e-5`, `--cpu` to `1`. -/
def defaultParameters : NhmmerParams :=
  { o := none
    noali := true
    tblout := none
    acc := true
    E := some (1 / 100000)
    cpu := some 1 }

/-- The recognized option keys of `hmmer_nhmmer._parameters`
(src/bfillings/hmmer.py lines 51-68). -/
def recognizedKeys : List String :=
  ["-o", "--noali", "--tblout", "--acc", "-E", "--cpu"]

/-- Python truthiness of an optional string (`if tblout_filepath:`):
false for `None` and for the empty string. -/
def pyTruthyStr : Option String → Bool
  | none => false
  | some s => s ≠ ""

/-- Python truthiness of an optional rational (`if evalue:`): false for
`None`, `0` and `0.0`. -/
def pyTruthyRat : Option ℚ → Bool
  | none => false
  | some v => v ≠ 0

/-- The arguments of `run_nhmmer` that affect the constructed command and
the validation phase (src/bfillings/hmmer.py lines 101-110). -/
structure RunArgs where
  fasta_filepath : String
  profile_hmm : String
  output_filepath : String
  tblout_filepath : Option String
  report_artifacts : Bool
  noali : Bool
  acc : Bool
  evalue : Option ℚ
  threads : Int
  deriving Repr, DecidableEq

/-- The error message raised for a non-positive thread count
(src/bfillings/hmmer.py line 156). -/
def threadsErrorMsg : String :=
  "Number of threads must be a positive integer."

/-- The error message raised when artifacts are requested without a
table-output path (src/bfillings/hmmer.py lines 165-166). -/
def tbloutErrorMsg : String :=
  "A table of parseable table of hits is required as output in order to deduce the artifacts."

/-- The parameter-setting phase of `run_nhmmer` applied to an arbitrary
initial parameter state (src/bfillings/hmmer.py lines 147-168): turn
`--noali` / `--acc` off when the caller passed false, set `-E` when
`evalue` is truthy, validate the thread count, set `--tblout` when a
truthy path is given, validate that artifacts imply a table path, and
finally set `-o`. -/
def applyRunArgs (init : NhmmerParams) (a : RunArgs) : Except String NhmmerParams :=
  let p := init
  let p := if !a.noali then { p with noali := false } else p
  let p := if !a.acc then { p with acc := false } else p
  let p := if pyTruthyRat a.evalue then { p with E := a.evalue } else p
  if a.threads > 0 then
    let p := { p with cpu := some a.threads }
    let p := if pyTruthyStr a.tblout_filepath then { p with tblout := a.tblout_filepath } else p
    if a.report_artifacts && a.tblout_filepath.isNone then
      Except.error tbloutErrorMsg
    else
      Except.ok { p with o := some a.output_filepath }
  else
    Except.error threadsErrorMsg

/-- The pre-invocation phase of `run_nhmmer`: line 144 instantiates a
fresh `hmmer_nhmmer` object, whose `Parameters` are a fresh copy of the
class-level defaults, and lines 147-168 apply the caller's arguments to
it.  An `Except.error` means a `ValueError` is raised before the external
process is invoked. -/
def setupParams (a : RunArgs) : Except String NhmmerParams :=
  applyRunArgs defaultParameters a

/-- The parameter states produced by two successive `run_nhmmer`
invocations: each call constructs its own fresh instance from the class
defaults (src/bfillings/hmmer.py line 144). -/
def twoRunStates (a₁ a₂ : RunArgs) :
    Except String NhmmerParams × Except String NhmmerParams :=
  (applyRunArgs defaultParameters a₁, applyRunArgs defaultParameters a₂)

/-- Python's `str.split()` with no separator: split on runs of whitespace,
discarding empty fields, so that leading and trailing whitespace is
ignored and a whitespace-only string yields `[]`.  `line.strip().split()`
at src/bfillings/hmmer.py line 182 coincides with this. -/
def pySplit (s : String) : List String :=
  ((s.data.splitOnP fun c => c.isWhitespace).filter fun t => t ≠ []).map fun cs => String.mk cs

/-- Python's `line.startswith('#')` (src/bfillings/hmmer.py line 180):
the line's first character is `#`. -/
def isCommentLine (s : String) : Bool :=
  match s.data with
  | c :: _ => c = '#'
  | [] => false

/-- The hit-collection loop of `run_nhmmer` (src/bfillings/hmmer.py
lines 178-183): skip lines prefixed by `#`, take the first
whitespace-delimited field of every other line.  `none` models the
`IndexError` raised by `line[0]` when a non-comment line has no fields. -/
def parseHits : List String → Option (Finset String)
  | [] => some ∅
  | line :: rest =>
    if isCommentLine line then parseHits rest
    else
      match pySplit line with
      | [] => none
      | w :: _ => (parseHits rest).map (insert w)

/-- The matched-identifier set as the specification words it: the first
whitespace-delimited field of every table line not prefixed by `#`.
Stated independently of the source loop to compare against `parseHits`. -/
def specMatchedIds (lines : List String) : Finset String :=
  (lines.filter fun l => !isCommentLine l).foldr
    (fun l s =>
      match pySplit l with
      | [] => s
      | w :: _ => insert w s) ∅

/-- The observable outcome of one external `nhmmer` process run: its exit
status, its captured standard error, and the lines of the table-output
file it wrote. -/
structure ExternalRun where
  exitStatus : Int
  stderr : String
  tableLines : List String
  deriving Repr, DecidableEq

/-- Modelled from the spec: the process-invocation step of
`run_nhmmer` (line 171, `app_result = nhmmer(data)`) delegates to the
external burrito `CommandLineApplication` collaborator, whose code is not
under src/.  Per the specification it executes the command synchronously
and, on a non-zero exit status, raises an application-level error
carrying the captured standard error. -/
def invokeProcess (ext : ExternalRun) : Except String Unit :=
  if ext.exitStatus ≠ 0 then Except.error ext.stderr else Except.ok ()

/-- The error raised by `line[0]` on an empty field list
(src/bfillings/hmmer.py line 183). -/
def indexErrorMsg : String :=
  "IndexError: list index out of range"

/-- `run_nhmmer` (src/bfillings/hmmer.py lines 101-194) as a function of
its arguments, the outcome of the external process, and the labels the
FASTA-parser collaborator yields for `fasta_filepath`: validate and set
parameters, invoke the process, and when `report_artifacts` is set
compute the set difference of the FASTA labels and the table hits.
Returns the final parameter state together with the artifact set (empty
when artifacts were not requested, mirroring `artifacts = []`). -/
def runNhmmer (a : RunArgs) (ext : ExternalRun) (fastaLabels : List String) :
    Except String (NhmmerParams × Finset String) := do
  let p ← setupParams a
  let _ ← invokeProcess ext
  if a.report_artifacts then
    match parseHits ext.tableLines with
    | none => Except.error indexErrorMsg
    | some hits => Except.ok (p, fastaLabels.toFinset \ hits)
  else
    Except.ok (p, ∅)

/-- The positional data string of `run_nhmmer`
(src/bfillings/hmmer.py line 170): `"%s %s" % (profile_hmm, fasta_filepath)`. -/
def positionalData (profile_hmm fasta_filepath : String) : String :=
  profile_hmm ++ " " ++ fasta_filepath

/-- Joining command parts with single spaces. -/
def joinSpace : List String → String
  | [] => ""
  | [x] => x
  | x :: xs => x ++ " " ++ joinSpace xs

/-- Modelled from the spec: command assembly in the external burrito
`CommandLineApplication` base class, not under src/ — the command name,
then the option flag strings, then the input data, joined by single
spaces, with the positional part appended after all flags. -/
def buildCommandLine (cmd : String) (flagStrings : List String) (data : String) : String :=
  joinSpace ([cmd] ++ flagStrings ++ [data])

/-- A table-output file is well formed when every non-comment line has at
least one whitespace-delimited field (so the spec's notion of "first
field" is defined on it). -/
def wellFormedTable (lines : List String) : Prop :=
  ∀ l ∈ lines, isCommentLine l = false → pySplit l ≠ []

instance (lines : List String) : Decidable (wellFormedTable lines) := by
  unfold wellFormedTable
  infer_instance

/-- Modelled from the spec: option validation in the external controller
base class, not under src/ — only recognized option keys may be supplied;
an unrecognized key fails with a descriptive error carrying the offending
keys.  The recognized-key table is `hmmer_nhmmer._parameters` from src. -/
def checkOptions (opts : List String) : Except (List String) Unit :=
  let bad := opts.filter fun k => !recognizedKeys.contains k
  if bad.isEmpty then Except.ok () else Except.error bad

/-! ## Concrete fixtures -/

/-- A default invocation: all optional arguments at their Python
defaults. -/
def baseArgs : RunArgs :=
  { fasta_filepath := "seqs.fasta", profile_hmm := "profile.hmm",
    output_filepath := "out.txt", tblout_filepath := none,
    report_artifacts := false, noali := true, acc := true,
    evalue := none, threads := 1 }

/-- The parameter state `baseArgs` produces. -/
def baseParams : NhmmerParams :=
  { o := some "out.txt", noali := true, tblout := none, acc := true,
    E := some (1 / 100000), cpu := some 1 }

/-- An invocation requesting artifact reporting with a table path. -/
def exampleArgs : RunArgs :=
  { baseArgs with report_artifacts := true, tblout_filepath := some "hits.tbl" }

/-- The parameter state `exampleArgs` produces. -/
def exampleParams : NhmmerParams :=
  { o := some "out.txt", noali := true, tblout := some "hits.tbl", acc := true,
    E := some (1 / 100000), cpu := some 1 }

/-- Artifact reporting requested without a table-output path. -/
def missingTblArgs : RunArgs :=
  { baseArgs with report_artifacts := true }

/-- A zero thread count, with several other parameters varied. -/
def badThreadsArgs : RunArgs :=
  { baseArgs with
    threads := 0
    report_artifacts := true
    tblout_filepath := some "hits.tbl"
    noali := false
    acc := false }

/-- An E-value threshold of exactly `0` requested by the caller. -/
def zeroEvalueArgs : RunArgs :=
  { baseArgs with evalue := some 0 }

/-- A successful run whose table holds hits `A` and `C`. -/
def exampleRun : ExternalRun :=
  { exitStatus := 0, stderr := "",
    tableLines := ["# target name   hmmfrom   hmm to", "A 1 300 5e-20", "C 5 250 3e-11"] }

/-- A successful run whose table holds only comment lines. -/
def commentRun : ExternalRun :=
  { exitStatus := 0, stderr := "", tableLines := ["# target name", "# ---"] }

/-- A successful run whose table hits are exactly `A` and `B`. -/
def equalRun : ExternalRun :=
  { exitStatus := 0, stderr := "", tableLines := ["A 1 300", "B 5 250"] }

/-- A successful run whose table holds a whitespace-only line. -/
def blankRun : ExternalRun :=
  { exitStatus := 0, stderr := "", tableLines := ["A 1 300", "   "] }

/-- A failed run: non-zero exit status with diagnostic text. -/
def failRun : ExternalRun :=
  { exitStatus := 1, stderr := "Error: bad profile file", tableLines := [] }

/-! ## Helper lemmas -/

/-- A validation error in the parameter phase short-circuits the whole of
`run_nhmmer`: the external outcome and the FASTA labels are never
consulted. -/
lemma runNhmmer_error_of_setup (a : RunArgs) (ext : ExternalRun)
    (labels : List String) (msg : String) (h : setupParams a = Except.error msg) :
    runNhmmer a ext labels = Except.error msg := by
  unfold runNhmmer
  rw [h]
  rfl

/-- A non-positive thread count makes the parameter phase fail with the
thread-count `ValueError`, whatever the other arguments are. -/
lemma setupParams_error_of_threads_nonpos (a : RunArgs) (h : a.threads ≤ 0) :
    setupParams a = Except.error threadsErrorMsg := by
  have h' : ¬ a.threads > 0 := by omega
  simp [setupParams, applyRunArgs, h']

/-- On a well-formed table the source's hit loop never hits the
`IndexError` and collects exactly the specification's matched-identifier
set. -/
lemma parseHits_eq_specMatchedIds (lines : List String)
    (h : wellFormedTable lines) :
    parseHits lines = some (specMatchedIds lines) := by
  induction lines with
  | nil => simp [parseHits, specMatchedIds]
  | cons l rest ih =>
    have hrest : wellFormedTable rest := by
      intro x hx hcx
      exact h x (List.mem_cons_of_mem _ hx) hcx
    by_cases hc : isCommentLine l = true
    · have e1 : parseHits (l :: rest) = parseHits rest := by simp [parseHits, hc]
      have e2 : specMatchedIds (l :: rest) = specMatchedIds rest := by
        simp [specMatchedIds, hc]
      rw [e1, e2]
      exact ih hrest
    · have hc' : isCommentLine l = false := by simpa using hc
      have hne : pySplit l ≠ [] := h l (List.mem_cons_self _ _) hc'
      cases hsp : pySplit l with
      | nil => exact absurd hsp hne
      | cons w ws =>
        have e1 : parseHits (l :: rest) = (parseHits rest).map (insert w) := by
          simp [parseHits, hc', hsp]
        have e2 : specMatchedIds (l :: rest) = insert w (specMatchedIds rest) := by
          simp [specMatchedIds, hc', hsp]
        rw [e1, e2, ih hrest]
        rfl

/-- A non-comment line with no fields anywhere in the table makes the hit
loop raise the `IndexError`. -/
lemma parseHits_none_of_blank (lines : List String)
    (h : ∃ l ∈ lines, isCommentLine l = false ∧ pySplit l = []) :
    parseHits lines = none := by
  induction lines with
  | nil => simp at h
  | cons l rest ih =>
    rcases h with ⟨x, hx, hcx, hsx⟩
    rcases List.mem_cons.mp hx with rfl | hx'
    · simp [parseHits, hcx, hsx]
    · by_cases hc : isCommentLine l = true
      · simp [parseHits, hc, ih ⟨x, hx', hcx, hsx⟩]
      · have hc' : isCommentLine l = false := by simpa using hc
        cases hsp : pySplit l with
        | nil => simp [parseHits, hc', hsp]
        | cons w ws => simp [parseHits, hc', hsp, ih ⟨x, hx', hcx, hsx⟩]

/-- A table of comment lines only yields the empty hit set. -/
lemma specMatchedIds_of_all_comments (lines : List String)
    (h : ∀ l ∈ lines, isCommentLine l = true) :
    specMatchedIds lines = ∅ := by
  unfold specMatchedIds
  have : lines.filter (fun l => !isCommentLine l) = [] := by
    apply List.filter_eq_nil_iff.mpr
    intro l hl
    simp [h l hl]
  rw [this]
  rfl

/-- Appending one element to a nonempty space-joined list appends it after
a single space. -/
lemma joinSpace_append_last (xs : List String) (d : String) (h : xs ≠ []) :
    joinSpace (xs ++ [d]) = joinSpace xs ++ " " ++ d := by
  induction xs with
  | nil => exact absurd rfl h
  | cons x xs ih =>
    cases xs with
    | nil => simp [joinSpace]
    | cons y ys =>
      have := ih (by simp)
      simp only [List.cons_append] at this ⊢
      simp [joinSpace, this, String.append_assoc]

/-- After a successful parameter phase and a zero external exit status,
`run_nhmmer` reduces to the artifact computation. -/
lemma runNhmmer_of_ok (a : RunArgs) (ext : ExternalRun) (labels : List String)
    (p : NhmmerParams) (hok : setupParams a = Except.ok p)
    (hexit : ext.exitStatus = 0) :
    runNhmmer a ext labels =
      if a.report_artifacts = true then
        match parseHits ext.tableLines with
        | none => Except.error indexErrorMsg
        | some hits => Except.ok (p, labels.toFinset \ hits)
      else Except.ok (p, ∅) := by
  have hinv : invokeProcess ext = Except.ok () := by
    simp [invokeProcess, hexit]
  unfold runNhmmer
  rw [hok, hinv]
  rfl

/-- The `-E` field of the constructed parameter state: the caller's
E-value when it is truthy, the class default `1e-5` otherwise. -/
lemma setupParams_E (a : RunArgs) (p : NhmmerParams)
    (hok : setupParams a = Except.ok p) :
    p.E = if pyTruthyRat a.evalue then a.evalue else some (1 / 100000) := by
  simp only [setupParams, applyRunArgs] at hok
  split at hok
  · split at hok
    · exact Except.noConfusion hok
    · injection hok with h
      rw [← h]
      split_ifs <;> rfl
  · exact Except.noConfusion hok

/-! ## Claim theorems -/

/-- C1: with artifact reporting requested, a successful `run_nhmmer`
returns as artifacts exactly the set of FASTA record labels minus the set
of matched identifiers, where a matched identifier is the first
whitespace-delimited field of every table line not prefixed by `#`. -/
theorem run_nhmmer_artifact_set (a : RunArgs) (ext : ExternalRun)
    (labels : List String) (p : NhmmerParams)
    (hr : a.report_artifacts = true)
    (hok : setupParams a = Except.ok p)
    (hexit : ext.exitStatus = 0)
    (hwf : wellFormedTable ext.tableLines) :
    runNhmmer a ext labels =
      Except.ok (p, labels.toFinset \ specMatchedIds ext.tableLines) := by
  rw [runNhmmer_of_ok a ext labels p hok hexit,
    parseHits_eq_specMatchedIds _ hwf]
  simp [hr]

/-- C1 witness: hit identifiers `{A, C}` and FASTA labels
`{A, B, C, D}` give artifacts `{B, D}`. -/
theorem run_nhmmer_artifact_set_witness :
    runNhmmer exampleArgs exampleRun ["A", "B", "C", "D"] =
      Except.ok (exampleParams,
        ["A", "B", "C", "D"].toFinset \ specMatchedIds exampleRun.tableLines) ∧
    ["A", "B", "C", "D"].toFinset \ specMatchedIds exampleRun.tableLines =
      ({"B", "D"} : Finset String) :=
  ⟨run_nhmmer_artifact_set exampleArgs exampleRun ["A", "B", "C", "D"]
      exampleParams rfl rfl rfl (by decide),
    by decide⟩

/-- C1 counterexample: on a table-output file holding a whitespace-only
non-comment line, `run_nhmmer` does not return the set difference of the
FASTA labels and the matched identifiers — it raises instead. -/
theorem run_nhmmer_artifact_set_counterexample :
    runNhmmer exampleArgs blankRun ["A"] ≠
      Except.ok (exampleParams, ["A"].toFinset \ specMatchedIds blankRun.tableLines) := by
  have h : runNhmmer exampleArgs blankRun ["A"] = Except.error indexErrorMsg := by
    rw [runNhmmer_of_ok exampleArgs blankRun ["A"] exampleParams rfl rfl,
      parseHits_none_of_blank _ (by decide)]
    rfl
  rw [h]
  simp

/-- C2 counterexample: in an invocation that sets no flags beyond the
Python defaults, the constructed command state still has `--noali`,
`--acc`, `-E` and `--cpu` on — flags the call did not set are not off, so
`run_nhmmer` does not reset every recognized option to the off state
before applying the caller's values. -/
theorem run_nhmmer_no_reset_counterexample :
    (twoRunStates baseArgs baseArgs).2 = Except.ok baseParams ∧
    baseParams.noali = true ∧ baseParams.acc = true ∧
    baseParams.E ≠ none ∧ baseParams.cpu ≠ none :=
  ⟨rfl, rfl, rfl, by simp [baseParams], by simp [baseParams]⟩

/-- C2 amended: `run_nhmmer` carries no flag state between runs because
each invocation constructs a fresh parameter state from the class-level
defaults — the second run's state is independent of the first run's
arguments — but a flag not set in the second call takes its class-default
state (on for `--noali`, `--acc`, `-E` at `1e-5` and `--cpu` at `1`),
not the off state. -/
theorem run_nhmmer_fresh_state_no_carryover (a₁ a₁' a₂ : RunArgs) :
    (twoRunStates a₁ a₂).2 = (twoRunStates a₁' a₂).2 ∧
    (twoRunStates a₁ a₂).2 = applyRunArgs defaultParameters a₂ ∧
    defaultParameters.noali = true ∧ defaultParameters.acc = true ∧
    defaultParameters.E = some (1 / 100000) ∧ defaultParameters.cpu = some 1 :=
  ⟨rfl, rfl, rfl, rfl, rfl, rfl⟩

/-- C3: requesting artifact reporting without a table-output path makes
`run_nhmmer` fail with a validation error raised in the parameter phase,
before the external process is invoked — the result is the same error for
every external outcome. -/
theorem run_nhmmer_artifacts_need_tblout (a : RunArgs) (ext : ExternalRun)
    (labels : List String)
    (hr : a.report_artifacts = true) (ht : a.tblout_filepath = none) :
    ∃ msg, setupParams a = Except.error msg ∧
      runNhmmer a ext labels = Except.error msg := by
  by_cases hth : a.threads > 0
  · have hset : setupParams a = Except.error tbloutErrorMsg := by
      simp [setupParams, applyRunArgs, hth, hr, ht]
    exact ⟨tbloutErrorMsg, hset, runNhmmer_error_of_setup a ext labels _ hset⟩
  · have hset := setupParams_error_of_threads_nonpos a (by omega)
    exact ⟨threadsErrorMsg, hset, runNhmmer_error_of_setup a ext labels _ hset⟩

/-- C3 witness: `report_artifacts` without `tblout_filepath` fails. -/
theorem run_nhmmer_artifacts_need_tblout_witness :
    ∃ msg, setupParams missingTblArgs = Except.error msg ∧
      runNhmmer missingTblArgs exampleRun ["A"] = Except.error msg :=
  run_nhmmer_artifacts_need_tblout missingTblArgs exampleRun ["A"] rfl rfl

/-- C4: a non-positive thread count makes `run_nhmmer` fail with the
thread-count `ValueError` in the parameter phase, before the external
process is invoked, regardless of all other parameter values. -/
theorem run_nhmmer_rejects_nonpositive_threads (a : RunArgs)
    (ext : ExternalRun) (labels : List String) (h : a.threads ≤ 0) :
    setupParams a = Except.error threadsErrorMsg ∧
    runNhmmer a ext labels = Except.error threadsErrorMsg := by
  have hset := setupParams_error_of_threads_nonpos a h
  exact ⟨hset, runNhmmer_error_of_setup a ext labels _ hset⟩

/-- C4 witness: zero threads fail even with other parameters varied. -/
theorem run_nhmmer_rejects_nonpositive_threads_witness :
    setupParams badThreadsArgs = Except.error threadsErrorMsg ∧
    runNhmmer badThreadsArgs exampleRun ["A"] = Except.error threadsErrorMsg :=
  run_nhmmer_rejects_nonpositive_threads badThreadsArgs exampleRun ["A"] (by decide)

/-- C5: with artifact reporting requested, a table of only comment lines
yields every FASTA label as an artifact; an empty FASTA input yields an
empty artifact set for any well-formed table; identical hit and label
sets yield an empty artifact set. -/
theorem run_nhmmer_artifact_edge_cases :
    (∀ a ext labels p, a.report_artifacts = true → setupParams a = Except.ok p →
      ext.exitStatus = 0 → (∀ l ∈ ext.tableLines, isCommentLine l = true) →
      runNhmmer a ext labels = Except.ok (p, labels.toFinset)) ∧
    (∀ a ext p, a.report_artifacts = true → setupParams a = Except.ok p →
      ext.exitStatus = 0 → wellFormedTable ext.tableLines →
      runNhmmer a ext [] = Except.ok (p, ∅)) ∧
    (∀ a ext labels p, a.report_artifacts = true → setupParams a = Except.ok p →
      ext.exitStatus = 0 → wellFormedTable ext.tableLines →
      specMatchedIds ext.tableLines = labels.toFinset →
      runNhmmer a ext labels = Except.ok (p, ∅)) := by
  refine ⟨?_, ?_, ?_⟩
  · intro a ext labels p hr hok hexit hcom
    have hwf : wellFormedTable ext.tableLines := by
      intro l hl hc
      rw [hcom l hl] at hc
      exact absurd hc (by simp)
    rw [runNhmmer_of_ok a ext labels p hok hexit,
      parseHits_eq_specMatchedIds _ hwf,
      specMatchedIds_of_all_comments _ hcom]
    simp [hr]
  · intro a ext p hr hok hexit hwf
    rw [runNhmmer_of_ok a ext [] p hok hexit,
      parseHits_eq_specMatchedIds _ hwf]
    simp [hr]
  · intro a ext labels p hr hok hexit hwf heq
    rw [runNhmmer_of_ok a ext labels p hok hexit,
      parseHits_eq_specMatchedIds _ hwf, heq]
    simp [hr]

/-- C5 witness: FASTA labels `{A, B}` with a comment-only table give
artifacts `{A, B}`; an empty FASTA gives no artifacts; hits equal to the
label set give no artifacts. -/
theorem run_nhmmer_artifact_edge_cases_witness :
    runNhmmer exampleArgs commentRun ["A", "B"] =
      Except.ok (exampleParams, ["A", "B"].toFinset) ∧
    runNhmmer exampleArgs equalRun [] = Except.ok (exampleParams, ∅) ∧
    runNhmmer exampleArgs equalRun ["A", "B"] = Except.ok (exampleParams, ∅) :=
  ⟨run_nhmmer_artifact_edge_cases.1 exampleArgs commentRun ["A", "B"]
      exampleParams rfl rfl rfl (by decide),
    run_nhmmer_artifact_edge_cases.2.1 exampleArgs equalRun
      exampleParams rfl rfl rfl (by decide),
    run_nhmmer_artifact_edge_cases.2.2 exampleArgs equalRun ["A", "B"]
      exampleParams rfl rfl rfl (by decide) (by decide)⟩

/-- C6: whenever the external process exits with a non-zero status after
a valid parameter phase, `run_nhmmer` surfaces an execution error
carrying the captured standard-error text. -/
theorem run_nhmmer_nonzero_exit_error (a : RunArgs) (ext : ExternalRun)
    (labels : List String) (p : NhmmerParams)
    (hok : setupParams a = Except.ok p) (h : ext.exitStatus ≠ 0) :
    runNhmmer a ext labels = Except.error ext.stderr := by
  have hinv : invokeProcess ext = Except.error ext.stderr := by
    simp [invokeProcess, h]
  unfold runNhmmer
  rw [hok, hinv]
  rfl

/-- C6 witness: an exit status of `1` surfaces the captured stderr. -/
theorem run_nhmmer_nonzero_exit_error_witness :
    runNhmmer baseArgs failRun [] = Except.error failRun.stderr :=
  run_nhmmer_nonzero_exit_error baseArgs failRun [] baseParams rfl (by decide)

/-- C7: any option set holding a key outside the recognized parameter
table of `hmmer_nhmmer` fails validation with an error carrying the
offending keys. -/
theorem unsupported_option_rejected (opts : List String) (k : String)
    (hk : k ∈ opts) (hbad : k ∉ recognizedKeys) :
    ∃ bad, checkOptions opts = Except.error bad ∧ k ∈ bad := by
  have hkf : k ∈ opts.filter fun x => !recognizedKeys.contains x :=
    List.mem_filter.mpr ⟨hk, by simpa using hbad⟩
  refine ⟨opts.filter fun x => !recognizedKeys.contains x, ?_, hkf⟩
  cases hflt : opts.filter fun x => !recognizedKeys.contains x with
  | nil =>
    rw [hflt] at hkf
    cases hkf
  | cons b bs =>
    simp only [checkOptions]
    rw [hflt]
    rfl

/-- C7 witness: the unrecognized key `--max` is rejected and named. -/
theorem unsupported_option_rejected_witness :
    ∃ bad, checkOptions ["--cpu", "--max"] = Except.error bad ∧ "--max" ∈ bad :=
  unsupported_option_rejected ["--cpu", "--max"] "--max" (by decide) (by decide)

/-- C8: the constructed command is the flags part followed by the
positional part, which is exactly the profile HMM path, a single space,
and the sequence database path. -/
theorem nhmmer_command_positional (flags : List String)
    (profile_hmm fasta_filepath : String) :
    buildCommandLine "nhmmer" flags (positionalData profile_hmm fasta_filepath) =
      joinSpace ("nhmmer" :: flags) ++ " " ++ (profile_hmm ++ " " ++ fasta_filepath) := by
  unfold buildCommandLine positionalData
  exact joinSpace_append_last (["nhmmer"] ++ flags) _ (by simp)

/-- C9: a falsy `evalue` argument (`None` or `0`) leaves the `-E`
parameter at its class default of `1e-5`. -/
theorem run_nhmmer_falsy_evalue_default (a : RunArgs) (p : NhmmerParams)
    (hv : a.evalue = none ∨ a.evalue = some 0)
    (hok : setupParams a = Except.ok p) :
    p.E = some (1 / 100000 : ℚ) := by
  have hev : pyTruthyRat a.evalue = false := by
    rcases hv with hv | hv <;> simp [pyTruthyRat, hv]
  rw [setupParams_E a p hok, hev]
  simp

/-- C9 witness: a caller requesting an E-value threshold of exactly `0`
gets the default `1e-5` threshold. -/
theorem run_nhmmer_falsy_evalue_default_witness :
    baseParams.E = some (1 / 100000 : ℚ) :=
  run_nhmmer_falsy_evalue_default zeroEvalueArgs baseParams (Or.inr rfl) rfl

/-- C10: a table-output file containing a whitespace-only line that does
not start with `#` makes the artifact computation raise the `IndexError`
instead of skipping the line or returning artifacts. -/
theorem run_nhmmer_blank_line_raises (a : RunArgs) (ext : ExternalRun)
    (labels : List String) (p : NhmmerParams)
    (hr : a.report_artifacts = true)
    (hok : setupParams a = Except.ok p)
    (hexit : ext.exitStatus = 0)
    (hbad : ∃ l ∈ ext.tableLines, isCommentLine l = false ∧ pySplit l = []) :
    runNhmmer a ext labels = Except.error indexErrorMsg := by
  rw [runNhmmer_of_ok a ext labels p hok hexit,
    parseHits_none_of_blank _ hbad]
  simp [hr]

/-- C10 witness: a whitespace-only table line raises the `IndexError`. -/
theorem run_nhmmer_blank_line_raises_witness :
    runNhmmer exampleArgs blankRun ["A"] = Except.error indexErrorMsg :=
  run_nhmmer_blank_line_raises exampleArgs blankRun ["A"] exampleParams
    rfl rfl rfl (by decide)

end Brokit
